import Mathlib

/-!
Shallow embedding of the YuE front-end repository (api_server.py, gradio_ui.py):
the request model, command composition, temp-file staging, the post-invocation
result handling of the Gradio handler, and the artifact-fetch endpoint.

Conventions used throughout:
* Python `int` fields are `Int`; Python `float` fields are `ℚ` (the exact value
  carried by the float; binary rounding and `str()` float formatting are outside
  the model — no theorem below depends on the textual rendering of a float).
* Python `Optional[str]` fields are `Option String`; Python truthiness of a
  string (`if request.genre_file:`) is `isSet` (false for `None` and `""`).
* Command tokens are tagged by provenance: `Arg.lit` for a string literal
  written in the source, `Arg.str` for a string taken from request/config data,
  `Arg.num` for `str()` of a numeric field.  Rendering (`Arg.render`) erases
  the tags and yields the actual process argument string.
* `tempfile.NamedTemporaryFile` name generation is modelled by an explicit
  supply `fresh : Nat → String` giving the n-th fresh temp-file name of one
  handler run; the files are created with `delete=False`.
-/

namespace YuE

/-- Environment-derived configuration, at its source default
(`os.getenv("STAGE1_MODEL", ...)` in api_server.py / gradio_ui.py). -/
def STAGE1_MODEL : String := "m-a-p/YuE-s1-7B-anneal-en-icl"

/-- Environment default for the stage-2 model id. -/
def STAGE2_MODEL : String := "m-a-p/YuE-s2-1B-general"

/-- Environment default for the CUDA device index. -/
def CUDA_IDX : String := "0"

/-- Environment default for the shared output directory. -/
def OUTPUT_DIR : String := "/app/output"

/-- Hard-coded path of the external inference program. -/
def INFERENCE_SCRIPT : String := "/app/inference/infer.py"

/-- One token of the composed command line, tagged by provenance.
`lit` is a string literal appearing in the source; `str` is a string taken
from the request or the configuration; `num` is `str()` of a numeric field. -/
inductive Arg where
  | lit : String → Arg
  | str : String → Arg
  | num : ℚ → Arg
deriving DecidableEq, Repr

/-- Python truthiness of an `Optional[str]`: `None` and `""` are falsy. -/
def isSet : Option String → Bool
  | none => false
  | some s => !(s == "")

/-- A temporary file staged for one invocation
(`tempfile.NamedTemporaryFile(mode='w', suffix='.txt', delete=False)`). -/
structure StagedFile where
  path : String
  content : String
deriving DecidableEq, Repr

/-- The pydantic request model `InferenceRequest` of api_server.py,
with its source default values. -/
structure InferenceRequest where
  genre_txt : Option String := none
  lyrics_txt : Option String := none
  genre_file : Option String := none
  lyrics_file : Option String := none
  run_n_segments : Int := 2
  stage2_batch_size : Int := 4
  max_new_tokens : Int := 3000
  repetition_penalty : ℚ := mkRat 11 10
  use_audio_prompt : Bool := false
  audio_prompt_path : Option String := none
  prompt_start_time : ℚ := 0
  prompt_end_time : ℚ := 30
  use_dual_tracks_prompt : Bool := false
  vocal_track_prompt_path : Option String := none
  instrumental_track_prompt_path : Option String := none
deriving DecidableEq, Repr

/-- The fixed leading arguments of the composed command
(api_server.py lines 83–93). -/
def apiFixedArgs (req : InferenceRequest) : List Arg :=
  [Arg.lit "python", Arg.lit INFERENCE_SCRIPT,
   Arg.lit "--cuda_idx", Arg.str CUDA_IDX,
   Arg.lit "--stage1_model", Arg.str STAGE1_MODEL,
   Arg.lit "--stage2_model", Arg.str STAGE2_MODEL,
   Arg.lit "--run_n_segments", Arg.str (toString req.run_n_segments),
   Arg.lit "--stage2_batch_size", Arg.str (toString req.stage2_batch_size),
   Arg.lit "--output_dir", Arg.str OUTPUT_DIR,
   Arg.lit "--max_new_tokens", Arg.str (toString req.max_new_tokens),
   Arg.lit "--repetition_penalty", Arg.num req.repetition_penalty]

/-- Genre handling of api_server.py lines 96–102: a truthy file reference is
passed directly; otherwise truthy free text is staged into a fresh temp file
(the first temp name of the run) whose path is passed; otherwise nothing. -/
def genrePart (req : InferenceRequest) (fresh : Nat → String) :
    List Arg × List StagedFile :=
  if isSet req.genre_file then
    ([Arg.lit "--genre_txt", Arg.str (req.genre_file.getD "")], [])
  else if isSet req.genre_txt then
    ([Arg.lit "--genre_txt", Arg.str (fresh 0)],
     [⟨fresh 0, req.genre_txt.getD ""⟩])
  else ([], [])

/-- Whether the genre branch stages a temp file. -/
def genreStages (req : InferenceRequest) : Bool :=
  !isSet req.genre_file && isSet req.genre_txt

/-- Whether the lyrics branch stages a temp file. -/
def lyricsStages (req : InferenceRequest) : Bool :=
  !isSet req.lyrics_file && isSet req.lyrics_txt

/-- Whether composing the request creates no temp file at all. -/
def stagesNothing (req : InferenceRequest) : Bool :=
  !genreStages req && !lyricsStages req

/-- Index of the lyrics temp file in the fresh-name supply: the second fresh
name of the run when the genre branch already staged one. -/
def lyricsIdx (req : InferenceRequest) : Nat :=
  if genreStages req then 1 else 0

/-- Lyrics handling of api_server.py lines 104–110. -/
def lyricsPart (req : InferenceRequest) (fresh : Nat → String) :
    List Arg × List StagedFile :=
  if isSet req.lyrics_file then
    ([Arg.lit "--lyrics_txt", Arg.str (req.lyrics_file.getD "")], [])
  else if isSet req.lyrics_txt then
    ([Arg.lit "--lyrics_txt", Arg.str (fresh (lyricsIdx req))],
     [⟨fresh (lyricsIdx req), req.lyrics_txt.getD ""⟩])
  else ([], [])

/-- The pair `--flag path`, emitted only when the optional path is truthy. -/
def optPath (flag : String) (p : Option String) : List Arg :=
  if isSet p then [Arg.lit flag, Arg.str (p.getD "")] else []

/-- The audio-prompt block, lines 113–130 of api_server.py and the textually
identical lines 79–96 of gradio_ui.py.  The time fields are non-optional
floats in both callers (`prompt_start_time: float = 0`), so the
`is not None` guards in the source are always true and the two time pairs
are always emitted inside a prompt mode. -/
def promptArgs (useDual useAudio : Bool) (vocal instr audio : Option String)
    (ts te : ℚ) : List Arg :=
  if useDual then
    Arg.lit "--use_dual_tracks_prompt" ::
      (optPath "--vocal_track_prompt_path" vocal ++
       optPath "--instrumental_track_prompt_path" instr ++
       [Arg.lit "--prompt_start_time", Arg.num ts,
        Arg.lit "--prompt_end_time", Arg.num te])
  else if useAudio then
    Arg.lit "--use_audio_prompt" ::
      (optPath "--audio_prompt_path" audio ++
       [Arg.lit "--prompt_start_time", Arg.num ts,
        Arg.lit "--prompt_end_time", Arg.num te])
  else []

/-- A composed command together with the temp files staged while composing. -/
structure Composed where
  args : List Arg
  staged : List StagedFile
deriving DecidableEq, Repr

/-- Full command composition of `generate_music` (api_server.py lines 83–130). -/
def apiCompose (req : InferenceRequest) (fresh : Nat → String) : Composed :=
  { args := apiFixedArgs req ++ (genrePart req fresh).1 ++ (lyricsPart req fresh).1 ++
      promptArgs req.use_dual_tracks_prompt req.use_audio_prompt
        req.vocal_track_prompt_path req.instrumental_track_prompt_path
        req.audio_prompt_path req.prompt_start_time req.prompt_end_time
    staged := (genrePart req fresh).2 ++ (lyricsPart req fresh).2 }

/-- The JSON body / HTTP outcome returned by an api_server.py endpoint. -/
inductive ApiResponse where
  | accepted (status message output_dir note : String)
  | httpError (code : Nat) (detail : String)
deriving DecidableEq, Repr

/-- The full observable effect of one run of the `generate_music` handler
(api_server.py lines 73–142).  The handler composes the command and stages
temp files, but it contains no deletion of the `delete=False` temp files, it
never starts the composed command, and it never registers a task on the
`background_tasks` parameter; it always answers with the literal placeholder
acceptance JSON. -/
structure GenerateEffects where
  args : List Arg
  staged : List StagedFile
  deleted : List String
  launched : List (List Arg)
  background : List (List Arg)
  response : ApiResponse
deriving DecidableEq, Repr

/-- The `generate_music` handler of api_server.py. -/
def generate_music (req : InferenceRequest) (fresh : Nat → String) :
    GenerateEffects :=
  let c := apiCompose req fresh
  { args := c.args
    staged := c.staged
    deleted := []
    launched := []
    background := []
    response := ApiResponse.accepted "accepted" "Music generation started"
      OUTPUT_DIR
      "This is a placeholder. Actual implementation should run inference asynchronously and return results." }

/-! ### The Gradio handler's command composition (gradio_ui.py lines 55–96) -/

/-- The parameters of `run_inference` in gradio_ui.py (its source signature:
plain strings for genre/lyrics, optional strings for the audio paths). -/
structure GradioParams where
  genre_txt : String := ""
  lyrics_txt : String := ""
  run_n_segments : Int := 2
  stage2_batch_size : Int := 4
  max_new_tokens : Int := 3000
  repetition_penalty : ℚ := mkRat 11 10
  use_audio_prompt : Bool := false
  audio_prompt_path : Option String := none
  prompt_start_time : ℚ := 0
  prompt_end_time : ℚ := 30
  use_dual_tracks_prompt : Bool := false
  vocal_track_prompt_path : Option String := none
  instrumental_track_prompt_path : Option String := none
  stage1_model : String := STAGE1_MODEL
  stage2_model : String := STAGE2_MODEL
deriving DecidableEq, Repr

/-- Fixed leading arguments of gradio_ui.py lines 55–65 (model ids come from
the function parameters there, not from the environment). -/
def gradioFixedArgs (p : GradioParams) : List Arg :=
  [Arg.lit "python", Arg.lit INFERENCE_SCRIPT,
   Arg.lit "--cuda_idx", Arg.str CUDA_IDX,
   Arg.lit "--stage1_model", Arg.str p.stage1_model,
   Arg.lit "--stage2_model", Arg.str p.stage2_model,
   Arg.lit "--run_n_segments", Arg.str (toString p.run_n_segments),
   Arg.lit "--stage2_batch_size", Arg.str (toString p.stage2_batch_size),
   Arg.lit "--output_dir", Arg.str OUTPUT_DIR,
   Arg.lit "--max_new_tokens", Arg.str (toString p.max_new_tokens),
   Arg.lit "--repetition_penalty", Arg.num p.repetition_penalty]

/-- gradio_ui.py lines 68–71: non-empty genre text is always staged
(the UI path has no file-reference alternative). -/
def gradioGenrePart (p : GradioParams) (fresh : Nat → String) :
    List Arg × List StagedFile :=
  if p.genre_txt == "" then ([], [])
  else ([Arg.lit "--genre_txt", Arg.str (fresh 0)], [⟨fresh 0, p.genre_txt⟩])

/-- Index of the lyrics temp file in the Gradio handler's fresh-name supply. -/
def gradioLyricsIdx (p : GradioParams) : Nat :=
  if p.genre_txt == "" then 0 else 1

/-- gradio_ui.py lines 73–76. -/
def gradioLyricsPart (p : GradioParams) (fresh : Nat → String) :
    List Arg × List StagedFile :=
  if p.lyrics_txt == "" then ([], [])
  else ([Arg.lit "--lyrics_txt", Arg.str (fresh (gradioLyricsIdx p))],
        [⟨fresh (gradioLyricsIdx p), p.lyrics_txt⟩])

/-- Full command composition of `run_inference` (gradio_ui.py lines 55–96). -/
def gradioCompose (p : GradioParams) (fresh : Nat → String) : Composed :=
  { args := gradioFixedArgs p ++ (gradioGenrePart p fresh).1 ++
      (gradioLyricsPart p fresh).1 ++
      promptArgs p.use_dual_tracks_prompt p.use_audio_prompt
        p.vocal_track_prompt_path p.instrumental_track_prompt_path
        p.audio_prompt_path p.prompt_start_time p.prompt_end_time
    staged := (gradioGenrePart p fresh).2 ++ (gradioLyricsPart p fresh).2 }

/-! ### Rendering command tokens back to the process argument strings -/

/-- Fuel-bounded decimal expansion of a rational in `[0,1)`, used only to give
`Arg.render` a concrete executable value for float tokens; Python's exact
binary-float `str()` formatting is outside the model and no theorem depends
on this rendering. -/
def fracDigits : Nat → Int → Int → String
  | 0, _, _ => ""
  | fuel + 1, r, den =>
    if r = 0 then ""
    else
      let r10 := r * 10
      toString (r10 / den) ++ fracDigits fuel (r10 % den) den

/-- Python-style decimal rendering of a numeric token (`5` ↦ `"5.0"`,
`11/10` ↦ `"1.1"`). -/
def pyNumStr (q : ℚ) : String :=
  let sign := if q.num < 0 then "-" else ""
  let n : Int := if q.num < 0 then -q.num else q.num
  let den : Int := (q.den : Int)
  let frac := fracDigits 17 (n % den) den
  sign ++ toString (n / den) ++ "." ++ (if frac = "" then "0" else frac)

/-- The actual argument string of a token. -/
def Arg.render : Arg → String
  | .lit s => s
  | .str s => s
  | .num q => pyNumStr q

/-- The join `' '.join(cmd)` of gradio_ui.py line 109. -/
def joinCmd (args : List Arg) : String :=
  String.intercalate " " (args.map Arg.render)

/-! ### Invocation result handling and output resolution (gradio_ui.py 98–128) -/

/-- The result of `subprocess.run(cmd, capture_output=True, text=True)`:
a normal value for any exit code (no exception for non-zero exit). -/
structure InvocationResult where
  returncode : Int
  stdout : String
  stderr : String
deriving DecidableEq, Repr

/-- One file of the output directory as the resolver sees it:
its base name and its modification timestamp (`st_mtime`). -/
structure DirEntry where
  name : String
  mtime : ℚ
deriving DecidableEq, Repr

/-- One step of Python's `max(..., key=...)`: the incumbent is
replaced only on a strictly greater key, so the first maximal element of the
iteration order wins. -/
def pyMax2 (key : α → ℚ) (best y : α) : α :=
  if key y > key best then y else best

/-- Python `max(l, key=key)` (`none` on the empty list, where Python raises). -/
def pyMaxBy (key : α → ℚ) : List α → Option α
  | [] => none
  | x :: xs => some (List.foldl (pyMax2 key) x xs)

/-- Test `charsLead p t`: the char list `p` is an initial run of `t`. -/
def charsLead : List Char → List Char → Bool
  | [], _ => true
  | _ :: _, [] => false
  | p :: ps, t :: ts => (p == t) && charsLead ps ts

/-- Test `endsIn sfx s`: the string `s` ends in `sfx`; this is exactly the set of
names matched by the glob patterns `*.mp3` / `*.wav` used in the source. -/
def endsIn (sfx s : String) : Bool :=
  charsLead sfx.toList.reverse s.toList.reverse

/-- The tail of `run_inference` (gradio_ui.py lines 103–128), as a function of
the composed argument list, the captured invocation result, whether the output
directory exists, and the directory listing.  Returns the pair
`(output audio path or None, status message)` the handler returns. -/
def run_inference_after (args : List Arg) (res : InvocationResult)
    (outDirExists : Bool) (listing : List DirEntry) :
    Option String × String :=
  if res.returncode ≠ 0 then
    (none, "Error: " ++ res.stderr ++ "\n\nCommand: " ++ joinCmd args)
  else if outDirExists = false then
    (none, "Output directory " ++ OUTPUT_DIR ++ " does not exist.")
  else
    let audio_files :=
      listing.filter (fun e => endsIn ".mp3" e.name) ++
      listing.filter (fun e => endsIn ".wav" e.name)
    match pyMaxBy DirEntry.mtime audio_files with
    | some latest =>
        (some (OUTPUT_DIR ++ "/" ++ latest.name),
         "✅ Success! Generated " ++ toString audio_files.length ++
           " file(s).\nLatest: " ++ latest.name ++
           "\n\nOutput directory: " ++ OUTPUT_DIR)
    | none =>
        (none, "Generation completed but no audio files found in " ++
          OUTPUT_DIR ++ ".\n\nCommand output: " ++ res.stdout)

/-! ### The artifact-fetch endpoint (api_server.py lines 144–150) -/

/-- Whether `file` starts with a path separator. -/
def isAbsolute (file : String) : Bool :=
  match file.toList with
  | '/' :: _ => true
  | _ => false

/-- The pathlib join `Path(dir) / file`: an absolute right operand replaces the
left one, otherwise the two are joined with a separator. -/
def pathJoin (dir file : String) : String :=
  if isAbsolute file then file else dir ++ "/" ++ file

/-- Split a path string at every `/`. -/
def splitStep (c : Char) (acc : List String) : List String :=
  match acc with
  | [] => [String.singleton c]
  | a :: as => if c = '/' then "" :: a :: as else (String.singleton c ++ a) :: as

/-- The `/`-separated components of a path. -/
def splitSlash (s : String) : List String :=
  s.toList.foldr splitStep [""]

/-- One step of operating-system path resolution over a reversed component
stack: empty and `.` components vanish, `..` pops (and is a no-op at the
root), anything else is pushed. -/
def resolveStep (acc : List String) (part : String) : List String :=
  if part = "" ∨ part = "." then acc
  else if part = ".." then acc.tail
  else part :: acc

/-- Resolution of an absolute path by the operating system at lookup time
(api_server.py itself performs no normalization of the joined path). -/
def resolvePath (p : String) : String :=
  "/" ++ String.intercalate "/" (((splitSlash p).foldl resolveStep []).reverse)

/-- Whether `p` is the directory `dir` itself or lies strictly inside it. -/
def insideDir (dir p : String) : Bool :=
  p == dir || charsLead (dir ++ "/").toList p.toList

/-- Outcome of the `get_output` endpoint. -/
inductive FetchResponse where
  | fileContent (path content : String)
  | notFound (detail : String)
deriving DecidableEq, Repr

/-- The `get_output` handler (api_server.py lines 144–150): join the
caller-supplied filename to the output directory, 404 if the joined path does
not exist, otherwise serve the file.  The filesystem is a map from resolved
absolute paths to contents. -/
def get_output (fs : String → Option String) (filename : String) :
    FetchResponse :=
  let p := resolvePath (pathJoin OUTPUT_DIR filename)
  match fs p with
  | some c => FetchResponse.fileContent p c
  | none => FetchResponse.notFound "File not found"

/-! ### Helper predicate: an adjacent `--flag value` pair inside a command -/

/-- Adjacency test: `pairInB a b l` holds when the tokens `a` and `b` occur adjacently, in
this order, somewhere in `l` — i.e. the command contains the pair
`--flag value`. -/
def pairInB (a b : Arg) : List Arg → Bool
  | [] => false
  | [_] => false
  | x :: y :: rest => (decide (x = a) && decide (y = b)) || pairInB a b (y :: rest)

/-! ### Concrete fixtures used by the claim theorems below -/

/-- A fresh temp-name supply as produced by one run of the handler. -/
def freshA : Nat → String := fun n => "/tmp/tmpa" ++ toString n ++ ".txt"

/-- The (necessarily different, since the first run's `delete=False` files
still exist) temp names of a second run of the handler. -/
def freshB : Nat → String := fun n => "/tmp/tmpb" ++ toString n ++ ".txt"

/-- The request with every field at its pydantic default. -/
def defaultRequest : InferenceRequest := {}

/-- A request that asks for both prompt modes at once. -/
def reqBothModes : InferenceRequest :=
  { use_dual_tracks_prompt := true, use_audio_prompt := true,
    vocal_track_prompt_path := some "/v.wav",
    instrumental_track_prompt_path := some "/i.wav",
    audio_prompt_path := some "/a.wav" }

/-- A request supplying both genre file and genre text, and only lyrics text. -/
def reqGenreBoth : InferenceRequest :=
  { genre_file := some "/g.txt", genre_txt := some "pop upbeat",
    lyrics_txt := some "[verse]\nhello" }

/-- The request of end-to-end scenario B: dual-track prompt, vocal path
`/a.wav`, instrumental path unset, prompt start 5 and end 20. -/
def reqScenarioB : InferenceRequest :=
  { use_dual_tracks_prompt := true, vocal_track_prompt_path := some "/a.wav",
    prompt_start_time := 5, prompt_end_time := 20 }

/-- A request whose free-text genre forces one staged temp file. -/
def reqStaging : InferenceRequest := { genre_txt := some "pop" }

/-- A request passing both genre and lyrics as file references. -/
def reqFilesOnly : InferenceRequest :=
  { genre_file := some "/g.txt", lyrics_file := some "/l.txt" }

/-- A request with an out-of-range segment count. -/
def reqOutOfRange : InferenceRequest := { run_n_segments := 0 }

/-- The invocation result of end-to-end scenario C: exit code 1,
stderr `CUDA OOM`. -/
def oomResult : InvocationResult := ⟨1, "", "CUDA OOM"⟩

/-- A successful invocation result (exit code 0). -/
def okResult : InvocationResult := ⟨0, "", ""⟩

/-- Two listings of the same two equally old files, in the two possible
directory iteration orders. -/
def listingAB : List DirEntry := [⟨"a.mp3", 10⟩, ⟨"b.mp3", 10⟩]

/-- The same files as `listingAB`, listed in the opposite order. -/
def listingBA : List DirEntry := [⟨"b.mp3", 10⟩, ⟨"a.mp3", 10⟩]

/-- A filesystem holding one file outside the output directory. -/
def secretFs : String → Option String :=
  fun p => if p = "/app/secret.txt" then some "top-secret" else none

/-! ### General lemmas -/

theorem pairInB_iff (a b : Arg) : ∀ l : List Arg,
    pairInB a b l = true ↔ ∃ u v, l = u ++ a :: b :: v
  | [] => by
      constructor
      · intro h; simp [pairInB] at h
      · rintro ⟨u, v, h⟩
        cases u <;> simp at h
  | [x] => by
      constructor
      · intro h; simp [pairInB] at h
      · rintro ⟨u, v, h⟩
        cases u with
        | nil => simp at h
        | cons c cs => cases cs <;> simp at h
  | x :: y :: rest => by
      rw [pairInB]
      constructor
      · intro h
        simp only [Bool.or_eq_true, Bool.and_eq_true, decide_eq_true_eq] at h
        rcases h with ⟨hx, hy⟩ | h2
        · exact ⟨[], rest, by simp [hx, hy]⟩
        · obtain ⟨u, v, huv⟩ := (pairInB_iff a b (y :: rest)).mp h2
          exact ⟨x :: u, v, by simp [huv]⟩
      · rintro ⟨u, v, huv⟩
        cases u with
        | nil =>
          simp at huv
          obtain ⟨h1, h2, h3⟩ := huv
          subst h1; subst h2; subst h3
          simp
        | cons c cs =>
          simp at huv
          simp only [Bool.or_eq_true]
          exact Or.inr ((pairInB_iff a b (y :: rest)).mpr ⟨cs, v, huv.2⟩)

/-- A pair present in the left half of a concatenation is present in the whole. -/
theorem pairInB_append_left (a b : Arg) (l m : List Arg)
    (h : pairInB a b l = true) : pairInB a b (l ++ m) = true := by
  obtain ⟨u, v, huv⟩ := (pairInB_iff a b l).mp h
  exact (pairInB_iff a b (l ++ m)).mpr ⟨u, v ++ m, by simp [huv]⟩

/-- A pair present in the right half of a concatenation is present in the whole. -/
theorem pairInB_append_right (a b : Arg) (l m : List Arg)
    (h : pairInB a b m = true) : pairInB a b (l ++ m) = true := by
  obtain ⟨u, v, huv⟩ := (pairInB_iff a b m).mp h
  exact (pairInB_iff a b (l ++ m)).mpr ⟨l ++ u, v, by simp [huv]⟩

/-! ### Properties of Python's first-maximum `max(..., key=...)` -/

theorem foldl_pyMax2_spec (key : α → ℚ) : ∀ (l : List α) (b : α),
    (List.foldl (pyMax2 key) b l = b ∨ List.foldl (pyMax2 key) b l ∈ l)
    ∧ key b ≤ key (List.foldl (pyMax2 key) b l)
    ∧ ∀ y ∈ l, key y ≤ key (List.foldl (pyMax2 key) b l)
  | [], b => by simp
  | x :: xs, b => by
      obtain ⟨hmem, hb, hall⟩ := foldl_pyMax2_spec key xs (pyMax2 key b x)
      have hpm : pyMax2 key b x = x ∨ pyMax2 key b x = b := by
        unfold pyMax2; split <;> simp
      have hbx : key b ≤ key (pyMax2 key b x) := by
        unfold pyMax2; split
        · exact le_of_lt (by assumption)
        · exact le_refl _
      have hxx : key x ≤ key (pyMax2 key b x) := by
        unfold pyMax2; split
        · exact le_refl _
        · exact le_of_not_lt (by assumption)
      rw [List.foldl_cons]
      refine ⟨?_, le_trans hbx hb, ?_⟩
      · rcases hmem with h | h
        · rcases hpm with h2 | h2
          · exact Or.inr (by rw [h, h2]; exact List.mem_cons_self x xs)
          · exact Or.inl (by rw [h, h2])
        · exact Or.inr (List.mem_cons_of_mem x h)
      · intro y hy
        rcases List.mem_cons.mp hy with h | h
        · rw [h]; exact le_trans hxx hb
        · exact hall y h

/-- Python `max(l, key=key)` returns an element of `l` of maximal key. -/
theorem pyMaxBy_mem_max (key : α → ℚ) (l : List α) (x : α)
    (h : pyMaxBy key l = some x) : x ∈ l ∧ ∀ y ∈ l, key y ≤ key x := by
  cases l with
  | nil => simp [pyMaxBy] at h
  | cons z zs =>
    simp only [pyMaxBy, Option.some.injEq] at h
    obtain ⟨hmem, hz, hall⟩ := foldl_pyMax2_spec key zs z
    subst h
    refine ⟨?_, ?_⟩
    · rcases hmem with h | h
      · rw [h]; exact List.mem_cons_self z zs
      · exact List.mem_cons_of_mem z h
    · intro y hy
      rcases List.mem_cons.mp hy with h | h
      · rw [h]; exact hz
      · exact hall y h

/-! ### Which literal tokens each composition fragment can contain -/

theorem lit_mem_optPath (flag : String) (p : Option String) (s : String)
    (h : Arg.lit s ∈ optPath flag p) : s = flag := by
  unfold optPath at h
  split at h
  · simpa using h
  · simp at h

theorem lit_mem_apiFixedArgs (req : InferenceRequest) (s : String)
    (h : Arg.lit s ∈ apiFixedArgs req) :
    s ∈ ["python", INFERENCE_SCRIPT, "--cuda_idx", "--stage1_model",
         "--stage2_model", "--run_n_segments", "--stage2_batch_size",
         "--output_dir", "--max_new_tokens", "--repetition_penalty"] := by
  simp only [apiFixedArgs, List.mem_cons, List.not_mem_nil, or_false] at h
  rcases h with h|h|h|h|h|h|h|h|h|h|h|h|h|h|h|h|h|h <;> simp_all

theorem lit_mem_gradioFixedArgs (p : GradioParams) (s : String)
    (h : Arg.lit s ∈ gradioFixedArgs p) :
    s ∈ ["python", INFERENCE_SCRIPT, "--cuda_idx", "--stage1_model",
         "--stage2_model", "--run_n_segments", "--stage2_batch_size",
         "--output_dir", "--max_new_tokens", "--repetition_penalty"] := by
  simp only [gradioFixedArgs, List.mem_cons, List.not_mem_nil, or_false] at h
  rcases h with h|h|h|h|h|h|h|h|h|h|h|h|h|h|h|h|h|h <;> simp_all

theorem lit_mem_genrePart (req : InferenceRequest) (fresh : Nat → String)
    (s : String) (h : Arg.lit s ∈ (genrePart req fresh).1) :
    s = "--genre_txt" := by
  unfold genrePart at h
  split at h
  · simpa using h
  · split at h
    · simpa using h
    · simp at h

theorem lit_mem_lyricsPart (req : InferenceRequest) (fresh : Nat → String)
    (s : String) (h : Arg.lit s ∈ (lyricsPart req fresh).1) :
    s = "--lyrics_txt" := by
  unfold lyricsPart at h
  split at h
  · simpa using h
  · split at h
    · simpa using h
    · simp at h

theorem lit_mem_gradioGenrePart (p : GradioParams) (fresh : Nat → String)
    (s : String) (h : Arg.lit s ∈ (gradioGenrePart p fresh).1) :
    s = "--genre_txt" := by
  unfold gradioGenrePart at h
  split at h
  · simp at h
  · simpa using h

theorem lit_mem_gradioLyricsPart (p : GradioParams) (fresh : Nat → String)
    (s : String) (h : Arg.lit s ∈ (gradioLyricsPart p fresh).1) :
    s = "--lyrics_txt" := by
  unfold gradioLyricsPart at h
  split at h
  · simp at h
  · simpa using h

theorem lit_mem_promptArgs (ud ua : Bool) (voc ins aud : Option String)
    (ts te : ℚ) (s : String)
    (h : Arg.lit s ∈ promptArgs ud ua voc ins aud ts te) :
    (ud = true ∧ s ∈ ["--use_dual_tracks_prompt", "--vocal_track_prompt_path",
        "--instrumental_track_prompt_path", "--prompt_start_time",
        "--prompt_end_time"])
    ∨ (ud = false ∧ ua = true ∧ s ∈ ["--use_audio_prompt",
        "--audio_prompt_path", "--prompt_start_time", "--prompt_end_time"]) := by
  unfold promptArgs at h
  cases ud with
  | true =>
    refine Or.inl ⟨rfl, ?_⟩
    simp only [if_pos rfl] at h
    rcases List.mem_cons.mp h with h | h
    · simp at h; simp [h]
    · rcases List.mem_append.mp h with h | h
      · rcases List.mem_append.mp h with h | h
        · simp [lit_mem_optPath _ _ _ h]
        · simp [lit_mem_optPath _ _ _ h]
      · simp at h; rcases h with h | h <;> simp [h]
  | false =>
    cases ua with
    | false => simp at h
    | true =>
      refine Or.inr ⟨rfl, rfl, ?_⟩
      simp only [Bool.false_eq_true, if_false, if_pos rfl] at h
      rcases List.mem_cons.mp h with h | h
      · simp at h; simp [h]
      · rcases List.mem_append.mp h with h | h
        · simp [lit_mem_optPath _ _ _ h]
        · simp at h; rcases h with h | h <;> simp [h]

theorem dual_mem_promptArgs_iff (ud ua : Bool) (voc ins aud : Option String)
    (ts te : ℚ) :
    Arg.lit "--use_dual_tracks_prompt" ∈ promptArgs ud ua voc ins aud ts te
      ↔ ud = true := by
  unfold promptArgs optPath
  split_ifs <;> simp_all

theorem single_mem_promptArgs_iff (ud ua : Bool) (voc ins aud : Option String)
    (ts te : ℚ) :
    Arg.lit "--use_audio_prompt" ∈ promptArgs ud ua voc ins aud ts te
      ↔ (ud = false ∧ ua = true) := by
  unfold promptArgs optPath
  split_ifs <;> simp_all

theorem vocal_mem_promptArgs_iff (ud ua : Bool) (voc ins aud : Option String)
    (ts te : ℚ) :
    Arg.lit "--vocal_track_prompt_path" ∈ promptArgs ud ua voc ins aud ts te
      ↔ (ud = true ∧ isSet voc = true) := by
  unfold promptArgs optPath
  split_ifs <;> simp_all

theorem instr_mem_promptArgs_iff (ud ua : Bool) (voc ins aud : Option String)
    (ts te : ℚ) :
    Arg.lit "--instrumental_track_prompt_path" ∈ promptArgs ud ua voc ins aud ts te
      ↔ (ud = true ∧ isSet ins = true) := by
  unfold promptArgs optPath
  split_ifs <;> simp_all

theorem audioPath_mem_promptArgs_iff (ud ua : Bool) (voc ins aud : Option String)
    (ts te : ℚ) :
    Arg.lit "--audio_prompt_path" ∈ promptArgs ud ua voc ins aud ts te
      ↔ (ud = false ∧ ua = true ∧ isSet aud = true) := by
  unfold promptArgs optPath
  split_ifs <;> simp_all

/-- A literal token that is none of the fixed flags and none of the
genre/lyrics flags occurs in the composed API command exactly when it occurs
in the prompt block. -/
theorem lit_mem_apiCompose_iff (req : InferenceRequest) (fresh : Nat → String)
    (s : String)
    (h1 : s ∉ ["python", INFERENCE_SCRIPT, "--cuda_idx", "--stage1_model",
         "--stage2_model", "--run_n_segments", "--stage2_batch_size",
         "--output_dir", "--max_new_tokens", "--repetition_penalty",
         "--genre_txt", "--lyrics_txt"]) :
    Arg.lit s ∈ (apiCompose req fresh).args ↔
      Arg.lit s ∈ promptArgs req.use_dual_tracks_prompt req.use_audio_prompt
        req.vocal_track_prompt_path req.instrumental_track_prompt_path
        req.audio_prompt_path req.prompt_start_time req.prompt_end_time := by
  simp only [apiCompose, List.mem_append]
  constructor
  · rintro (((h | h) | h) | h)
    · have := lit_mem_apiFixedArgs req s h
      simp only [List.mem_cons, List.not_mem_nil, or_false] at this h1
      tauto
    · have := lit_mem_genrePart req fresh s h
      simp only [List.mem_cons, List.not_mem_nil, or_false] at h1
      tauto
    · have := lit_mem_lyricsPart req fresh s h
      simp only [List.mem_cons, List.not_mem_nil, or_false] at h1
      tauto
    · exact h
  · intro h
    exact Or.inr h

/-- Same fact for the Gradio composition. -/
theorem lit_mem_gradioCompose_iff (p : GradioParams) (fresh : Nat → String)
    (s : String)
    (h1 : s ∉ ["python", INFERENCE_SCRIPT, "--cuda_idx", "--stage1_model",
         "--stage2_model", "--run_n_segments", "--stage2_batch_size",
         "--output_dir", "--max_new_tokens", "--repetition_penalty",
         "--genre_txt", "--lyrics_txt"]) :
    Arg.lit s ∈ (gradioCompose p fresh).args ↔
      Arg.lit s ∈ promptArgs p.use_dual_tracks_prompt p.use_audio_prompt
        p.vocal_track_prompt_path p.instrumental_track_prompt_path
        p.audio_prompt_path p.prompt_start_time p.prompt_end_time := by
  simp only [gradioCompose, List.mem_append]
  constructor
  · rintro (((h | h) | h) | h)
    · have := lit_mem_gradioFixedArgs p s h
      simp only [List.mem_cons, List.not_mem_nil, or_false] at this h1
      tauto
    · have := lit_mem_gradioGenrePart p fresh s h
      simp only [List.mem_cons, List.not_mem_nil, or_false] at h1
      tauto
    · have := lit_mem_gradioLyricsPart p fresh s h
      simp only [List.mem_cons, List.not_mem_nil, or_false] at h1
      tauto
    · exact h
  · intro h
    exact Or.inr h

theorem apiDual_mem_iff (req : InferenceRequest) (fresh : Nat → String) :
    Arg.lit "--use_dual_tracks_prompt" ∈ (apiCompose req fresh).args ↔
      req.use_dual_tracks_prompt = true := by
  rw [lit_mem_apiCompose_iff req fresh _ (by decide), dual_mem_promptArgs_iff]

theorem apiSingle_mem_iff (req : InferenceRequest) (fresh : Nat → String) :
    Arg.lit "--use_audio_prompt" ∈ (apiCompose req fresh).args ↔
      (req.use_dual_tracks_prompt = false ∧ req.use_audio_prompt = true) := by
  rw [lit_mem_apiCompose_iff req fresh _ (by decide), single_mem_promptArgs_iff]

theorem apiVocal_mem_iff (req : InferenceRequest) (fresh : Nat → String) :
    Arg.lit "--vocal_track_prompt_path" ∈ (apiCompose req fresh).args ↔
      (req.use_dual_tracks_prompt = true ∧
        isSet req.vocal_track_prompt_path = true) := by
  rw [lit_mem_apiCompose_iff req fresh _ (by decide), vocal_mem_promptArgs_iff]

theorem apiInstr_mem_iff (req : InferenceRequest) (fresh : Nat → String) :
    Arg.lit "--instrumental_track_prompt_path" ∈ (apiCompose req fresh).args ↔
      (req.use_dual_tracks_prompt = true ∧
        isSet req.instrumental_track_prompt_path = true) := by
  rw [lit_mem_apiCompose_iff req fresh _ (by decide), instr_mem_promptArgs_iff]

theorem apiAudioPath_mem_iff (req : InferenceRequest) (fresh : Nat → String) :
    Arg.lit "--audio_prompt_path" ∈ (apiCompose req fresh).args ↔
      (req.use_dual_tracks_prompt = false ∧ req.use_audio_prompt = true ∧
        isSet req.audio_prompt_path = true) := by
  rw [lit_mem_apiCompose_iff req fresh _ (by decide), audioPath_mem_promptArgs_iff]

theorem gradioDual_mem_iff (p : GradioParams) (fresh : Nat → String) :
    Arg.lit "--use_dual_tracks_prompt" ∈ (gradioCompose p fresh).args ↔
      p.use_dual_tracks_prompt = true := by
  rw [lit_mem_gradioCompose_iff p fresh _ (by decide), dual_mem_promptArgs_iff]

theorem gradioSingle_mem_iff (p : GradioParams) (fresh : Nat → String) :
    Arg.lit "--use_audio_prompt" ∈ (gradioCompose p fresh).args ↔
      (p.use_dual_tracks_prompt = false ∧ p.use_audio_prompt = true) := by
  rw [lit_mem_gradioCompose_iff p fresh _ (by decide), single_mem_promptArgs_iff]

/-! ### Claim theorems -/

/-- C1: for every generation request — through the API composer and through
the Gradio composer alike — the composed command contains at most one of the
prompt-mode flags `--use_dual_tracks_prompt` and `--use_audio_prompt`; and
whenever `use_dual_tracks_prompt` is set (in particular when both mode
booleans are set), the dual-track flag is emitted and the single-track flag
is not: dual-track takes precedence. -/
theorem c1_prompt_mode_flags_exclusive :
    (∀ (req : InferenceRequest) (fresh : Nat → String),
      ¬(Arg.lit "--use_dual_tracks_prompt" ∈ (apiCompose req fresh).args
          ∧ Arg.lit "--use_audio_prompt" ∈ (apiCompose req fresh).args)
      ∧ (req.use_dual_tracks_prompt = true →
          Arg.lit "--use_dual_tracks_prompt" ∈ (apiCompose req fresh).args
          ∧ Arg.lit "--use_audio_prompt" ∉ (apiCompose req fresh).args))
    ∧ (∀ (p : GradioParams) (fresh : Nat → String),
      ¬(Arg.lit "--use_dual_tracks_prompt" ∈ (gradioCompose p fresh).args
          ∧ Arg.lit "--use_audio_prompt" ∈ (gradioCompose p fresh).args)
      ∧ (p.use_dual_tracks_prompt = true →
          Arg.lit "--use_dual_tracks_prompt" ∈ (gradioCompose p fresh).args
          ∧ Arg.lit "--use_audio_prompt" ∉ (gradioCompose p fresh).args)) := by
  constructor
  · intro req fresh
    constructor
    · rintro ⟨h1, h2⟩
      rw [apiDual_mem_iff] at h1
      rw [apiSingle_mem_iff] at h2
      rw [h1] at h2
      simp at h2
    · intro h
      refine ⟨(apiDual_mem_iff req fresh).mpr h, ?_⟩
      rw [apiSingle_mem_iff, h]
      simp
  · intro p fresh
    constructor
    · rintro ⟨h1, h2⟩
      rw [gradioDual_mem_iff] at h1
      rw [gradioSingle_mem_iff] at h2
      rw [h1] at h2
      simp at h2
    · intro h
      refine ⟨(gradioDual_mem_iff p fresh).mpr h, ?_⟩
      rw [gradioSingle_mem_iff, h]
      simp

/-- Witness for C1 at the request that sets both mode booleans: the API
composer emits the dual-track flag and not the single-track flag. -/
theorem c1_prompt_mode_flags_exclusive_witness :
    reqBothModes.use_dual_tracks_prompt = true
    ∧ (Arg.lit "--use_dual_tracks_prompt" ∈ (apiCompose reqBothModes freshA).args
       ∧ Arg.lit "--use_audio_prompt" ∉ (apiCompose reqBothModes freshA).args) :=
  ⟨rfl, (c1_prompt_mode_flags_exclusive.1 reqBothModes freshA).2 rfl⟩

theorem pairInB_genre_lift (req : InferenceRequest) (fresh : Nat → String)
    (a b : Arg) (h : pairInB a b (genrePart req fresh).1 = true) :
    pairInB a b (apiCompose req fresh).args = true := by
  simp only [apiCompose]
  exact pairInB_append_left _ _ _ _
    (pairInB_append_left _ _ _ _ (pairInB_append_right _ _ _ _ h))

theorem pairInB_lyrics_lift (req : InferenceRequest) (fresh : Nat → String)
    (a b : Arg) (h : pairInB a b (lyricsPart req fresh).1 = true) :
    pairInB a b (apiCompose req fresh).args = true := by
  simp only [apiCompose]
  exact pairInB_append_left _ _ _ _ (pairInB_append_right _ _ _ _ h)

theorem pairInB_fixed_lift (req : InferenceRequest) (fresh : Nat → String)
    (a b : Arg) (h : pairInB a b (apiFixedArgs req) = true) :
    pairInB a b (apiCompose req fresh).args = true := by
  simp only [apiCompose]
  exact pairInB_append_left _ _ _ _
    (pairInB_append_left _ _ _ _ (pairInB_append_left _ _ _ _ h))

theorem apiGenreFlag_not_mem (req : InferenceRequest) (fresh : Nat → String)
    (h1 : isSet req.genre_file = false) (h2 : isSet req.genre_txt = false) :
    Arg.lit "--genre_txt" ∉ (apiCompose req fresh).args := by
  intro h
  simp only [apiCompose, List.mem_append] at h
  rcases h with ((h | h) | h) | h
  · exact absurd (lit_mem_apiFixedArgs req _ h) (by decide)
  · simp [genrePart, h1, h2] at h
  · have := lit_mem_lyricsPart req fresh _ h
    simp at this
  · have := lit_mem_promptArgs _ _ _ _ _ _ _ _ h
    rcases this with ⟨_, hn⟩ | ⟨_, _, hn⟩ <;> simp at hn

theorem apiLyricsFlag_not_mem (req : InferenceRequest) (fresh : Nat → String)
    (h1 : isSet req.lyrics_file = false) (h2 : isSet req.lyrics_txt = false) :
    Arg.lit "--lyrics_txt" ∉ (apiCompose req fresh).args := by
  intro h
  simp only [apiCompose, List.mem_append] at h
  rcases h with ((h | h) | h) | h
  · exact absurd (lit_mem_apiFixedArgs req _ h) (by decide)
  · have := lit_mem_genrePart req fresh _ h
    simp at this
  · simp [lyricsPart, h1, h2] at h
  · have := lit_mem_promptArgs _ _ _ _ _ _ _ _ h
    rcases this with ⟨_, hn⟩ | ⟨_, _, hn⟩ <;> simp at hn

/-- C2: genre/lyrics file-reference precedence in the API composer.  With a
(truthy) file reference, the `--genre_txt` (resp. `--lyrics_txt`) flag is
followed by that file path and the field stages no temp file; with only
(non-empty) free text, exactly one temp file holding that text is staged and
its fresh path follows the flag; with neither, the flag is absent and nothing
is staged for the field. -/
theorem c2_file_reference_precedence (req : InferenceRequest)
    (fresh : Nat → String) :
    (isSet req.genre_file = true →
      pairInB (Arg.lit "--genre_txt") (Arg.str (req.genre_file.getD ""))
        (apiCompose req fresh).args = true
      ∧ (genrePart req fresh).2 = [])
    ∧ (isSet req.genre_file = false → isSet req.genre_txt = true →
      (genrePart req fresh).2 = [⟨fresh 0, req.genre_txt.getD ""⟩]
      ∧ pairInB (Arg.lit "--genre_txt") (Arg.str (fresh 0))
          (apiCompose req fresh).args = true)
    ∧ (isSet req.genre_file = false → isSet req.genre_txt = false →
      Arg.lit "--genre_txt" ∉ (apiCompose req fresh).args
      ∧ (genrePart req fresh).2 = [])
    ∧ (isSet req.lyrics_file = true →
      pairInB (Arg.lit "--lyrics_txt") (Arg.str (req.lyrics_file.getD ""))
        (apiCompose req fresh).args = true
      ∧ (lyricsPart req fresh).2 = [])
    ∧ (isSet req.lyrics_file = false → isSet req.lyrics_txt = true →
      (lyricsPart req fresh).2 = [⟨fresh (lyricsIdx req), req.lyrics_txt.getD ""⟩]
      ∧ pairInB (Arg.lit "--lyrics_txt") (Arg.str (fresh (lyricsIdx req)))
          (apiCompose req fresh).args = true)
    ∧ (isSet req.lyrics_file = false → isSet req.lyrics_txt = false →
      Arg.lit "--lyrics_txt" ∉ (apiCompose req fresh).args
      ∧ (lyricsPart req fresh).2 = []) := by
  refine ⟨?_, ?_, ?_, ?_, ?_, ?_⟩
  · intro h
    refine ⟨pairInB_genre_lift req fresh _ _ ?_, by simp [genrePart, h]⟩
    simp [genrePart, h, pairInB]
  · intro h1 h2
    refine ⟨by simp [genrePart, h1, h2], pairInB_genre_lift req fresh _ _ ?_⟩
    simp [genrePart, h1, h2, pairInB]
  · intro h1 h2
    exact ⟨apiGenreFlag_not_mem req fresh h1 h2, by simp [genrePart, h1, h2]⟩
  · intro h
    refine ⟨pairInB_lyrics_lift req fresh _ _ ?_, by simp [lyricsPart, h]⟩
    simp [lyricsPart, h, pairInB]
  · intro h1 h2
    refine ⟨by simp [lyricsPart, h1, h2], pairInB_lyrics_lift req fresh _ _ ?_⟩
    simp [lyricsPart, h1, h2, pairInB]
  · intro h1 h2
    exact ⟨apiLyricsFlag_not_mem req fresh h1 h2, by simp [lyricsPart, h1, h2]⟩

/-- Witness for C2 at a request with both a genre file and genre free text
(the file path wins and nothing is staged for genre) and with only lyrics
free text (one staged lyrics file). -/
theorem c2_file_reference_precedence_witness :
    (isSet reqGenreBoth.genre_file = true
      ∧ pairInB (Arg.lit "--genre_txt") (Arg.str "/g.txt")
          (apiCompose reqGenreBoth freshA).args = true
      ∧ (genrePart reqGenreBoth freshA).2 = [])
    ∧ (isSet reqGenreBoth.lyrics_file = false
      ∧ isSet reqGenreBoth.lyrics_txt = true
      ∧ (lyricsPart reqGenreBoth freshA).2
          = [⟨"/tmp/tmpa0.txt", "[verse]\nhello"⟩]) := by
  have h1 := (c2_file_reference_precedence reqGenreBoth freshA).1 (by decide)
  have h2 := ((c2_file_reference_precedence reqGenreBoth freshA).2.2.2.2.1
    (by decide) (by decide)).1
  exact ⟨⟨by decide, h1.1, h1.2⟩, ⟨by decide, by decide, by rw [h2]; decide⟩⟩

/-- C3: for the scenario-B request the composed command contains the
dual-track flag, the pair `--vocal_track_prompt_path /a.wav`, no
instrumental-track flag, and the pairs `--prompt_start_time 5` and
`--prompt_end_time 20`; and in general, in either prompt mode, each
audio-path flag is omitted individually when its path is unset while the
mode flag is still emitted. -/
theorem c3_dual_track_scenario :
    (Arg.lit "--use_dual_tracks_prompt" ∈ (apiCompose reqScenarioB freshA).args
      ∧ pairInB (Arg.lit "--vocal_track_prompt_path") (Arg.str "/a.wav")
          (apiCompose reqScenarioB freshA).args = true
      ∧ Arg.lit "--instrumental_track_prompt_path"
          ∉ (apiCompose reqScenarioB freshA).args
      ∧ pairInB (Arg.lit "--prompt_start_time") (Arg.num 5)
          (apiCompose reqScenarioB freshA).args = true
      ∧ pairInB (Arg.lit "--prompt_end_time") (Arg.num 20)
          (apiCompose reqScenarioB freshA).args = true)
    ∧ (∀ (req : InferenceRequest) (fresh : Nat → String),
        (req.use_dual_tracks_prompt = true →
          Arg.lit "--use_dual_tracks_prompt" ∈ (apiCompose req fresh).args
          ∧ (isSet req.vocal_track_prompt_path = false →
              Arg.lit "--vocal_track_prompt_path" ∉ (apiCompose req fresh).args)
          ∧ (isSet req.instrumental_track_prompt_path = false →
              Arg.lit "--instrumental_track_prompt_path"
                ∉ (apiCompose req fresh).args))
        ∧ (req.use_dual_tracks_prompt = false → req.use_audio_prompt = true →
          Arg.lit "--use_audio_prompt" ∈ (apiCompose req fresh).args
          ∧ (isSet req.audio_prompt_path = false →
              Arg.lit "--audio_prompt_path" ∉ (apiCompose req fresh).args))) := by
  constructor
  · exact ⟨by decide, by decide, by decide, by decide, by decide⟩
  · intro req fresh
    constructor
    · intro h
      refine ⟨(apiDual_mem_iff req fresh).mpr h, ?_, ?_⟩
      · intro hv
        rw [apiVocal_mem_iff]
        simp [hv]
      · intro hi
        rw [apiInstr_mem_iff]
        simp [hi]
    · intro h1 h2
      refine ⟨(apiSingle_mem_iff req fresh).mpr ⟨h1, h2⟩, ?_⟩
      intro ha
      rw [apiAudioPath_mem_iff]
      simp [ha]

/-- Witness for C3's general part, applied at the scenario-B request. -/
theorem c3_dual_track_scenario_witness :
    reqScenarioB.use_dual_tracks_prompt = true
    ∧ isSet reqScenarioB.instrumental_track_prompt_path = false
    ∧ Arg.lit "--use_dual_tracks_prompt" ∈ (apiCompose reqScenarioB freshA).args
    ∧ Arg.lit "--instrumental_track_prompt_path"
        ∉ (apiCompose reqScenarioB freshA).args := by
  have h := (c3_dual_track_scenario.2 reqScenarioB freshA).1 rfl
  exact ⟨rfl, by decide, h.1, h.2.2 (by decide)⟩

/-- C4: when the external program exits non-zero, the Gradio handler treats
the invocation as a normal result (it returns a value, it does not raise):
the returned artifact reference is `none` and the status text is exactly
`Error: <stderr>\n\nCommand: <joined command>` — in particular it contains
the captured standard error and the full composed command string as
substrings. -/
theorem c4_nonzero_exit_normal_result (args : List Arg)
    (res : InvocationResult) (outDirExists : Bool) (listing : List DirEntry)
    (h : res.returncode ≠ 0) :
    run_inference_after args res outDirExists listing
      = (none, "Error: " ++ res.stderr ++ "\n\nCommand: " ++ joinCmd args)
    ∧ (∃ u v, "Error: " ++ res.stderr ++ "\n\nCommand: " ++ joinCmd args
        = u ++ res.stderr ++ v)
    ∧ (∃ w, "Error: " ++ res.stderr ++ "\n\nCommand: " ++ joinCmd args
        = w ++ joinCmd args) := by
  refine ⟨by simp [run_inference_after, h],
    ⟨"Error: ", "\n\nCommand: " ++ joinCmd args, ?_⟩,
    ⟨"Error: " ++ res.stderr ++ "\n\nCommand: ", rfl⟩⟩
  rw [String.append_assoc]

/-- Witness for C4 at scenario C: exit 1 with stderr `CUDA OOM` yields no
artifact and the literal status text embedding both the stderr and the
joined command. -/
theorem c4_nonzero_exit_normal_result_witness :
    oomResult.returncode ≠ 0
    ∧ run_inference_after [Arg.lit "python"] oomResult true []
        = (none, "Error: CUDA OOM\n\nCommand: python")
    ∧ (∃ u v, "Error: " ++ oomResult.stderr ++ "\n\nCommand: "
        ++ joinCmd [Arg.lit "python"] = u ++ oomResult.stderr ++ v) := by
  have h := c4_nonzero_exit_normal_result [Arg.lit "python"] oomResult true []
    (by decide)
  refine ⟨by decide, ?_, h.2.1⟩
  rw [h.1]
  decide

/-- C5 counterexample: two directory listings holding exactly the same files
(`a.mp3` and `b.mp3`, equal modification times) make the resolver return
different files depending only on iteration order, so a tie is NOT broken by
lexical path order (or by any other order-independent rule): the selected
artifact is the first maximal-mtime file of the concatenated
mp3-then-wav listing. -/
theorem c5_lexical_tie_break_counterexample :
    List.Perm listingAB listingBA
    ∧ (run_inference_after [Arg.lit "python"] okResult true listingAB).1
        = some "/app/output/a.mp3"
    ∧ (run_inference_after [Arg.lit "python"] okResult true listingBA).1
        = some "/app/output/b.mp3" := by
  refine ⟨?_, by decide, by decide⟩
  exact List.Perm.swap _ _ _

/-- C5 amended: on a successful invocation with an existing output
directory, the resolver considers the files matching `*.mp3` or `*.wav`;
when none match it returns no file together with the distinct
no-audio-files status message (there is no exception), and when `max`
selects a file, that file is returned and has maximal modification time
among the matches (which tied file wins depends on listing order, per the
counterexample). -/
theorem c5_latest_by_mtime_amended (args : List Arg) (res : InvocationResult)
    (listing : List DirEntry) (h : res.returncode = 0) :
    (listing.filter (fun e => endsIn ".mp3" e.name) ++
        listing.filter (fun e => endsIn ".wav" e.name) = [] →
      run_inference_after args res true listing
        = (none, "Generation completed but no audio files found in " ++
            OUTPUT_DIR ++ ".\n\nCommand output: " ++ res.stdout))
    ∧ (∀ x, pyMaxBy DirEntry.mtime
          (listing.filter (fun e => endsIn ".mp3" e.name) ++
           listing.filter (fun e => endsIn ".wav" e.name)) = some x →
        (run_inference_after args res true listing).1
            = some (OUTPUT_DIR ++ "/" ++ x.name)
        ∧ x ∈ listing.filter (fun e => endsIn ".mp3" e.name) ++
            listing.filter (fun e => endsIn ".wav" e.name)
        ∧ ∀ y ∈ listing.filter (fun e => endsIn ".mp3" e.name) ++
            listing.filter (fun e => endsIn ".wav" e.name),
            y.mtime ≤ x.mtime) := by
  constructor
  · intro he
    simp [run_inference_after, h, he, pyMaxBy]
  · intro x hx
    have hm := pyMaxBy_mem_max DirEntry.mtime _ x hx
    refine ⟨?_, hm.1, hm.2⟩
    simp [run_inference_after, h, hx]

/-- Witness for C5's amended statement: with an older `.wav` and a newer
`.mp3` the resolver returns the newer file (end-to-end scenario D's shape). -/
theorem c5_latest_by_mtime_amended_witness :
    okResult.returncode = 0
    ∧ pyMaxBy DirEntry.mtime
        ([⟨"song1.wav", 1⟩, ⟨"song2.mp3", 2⟩].filter
            (fun e => endsIn ".mp3" e.name) ++
         [⟨"song1.wav", 1⟩, ⟨"song2.mp3", 2⟩].filter
            (fun e => endsIn ".wav" e.name)) = some ⟨"song2.mp3", 2⟩
    ∧ (run_inference_after [Arg.lit "python"] okResult true
        [⟨"song1.wav", 1⟩, ⟨"song2.mp3", 2⟩]).1 = some "/app/output/song2.mp3" := by
  have h := (c5_latest_by_mtime_amended [Arg.lit "python"] okResult
    [⟨"song1.wav", 1⟩, ⟨"song2.mp3", 2⟩] rfl).2 ⟨"song2.mp3", 2⟩ (by decide)
  exact ⟨rfl, by decide, h.1⟩

/-- C6 (code defect): for a request with free-text genre the handler stages
a `delete=False` temp file, and no exit path of `generate_music` deletes any
temp file — the staged file outlives the invocation's handling, for this
request and for every request. -/
theorem c6_staged_files_never_deleted :
    (generate_music reqStaging freshA).staged = [⟨"/tmp/tmpa0.txt", "pop"⟩]
    ∧ (generate_music reqStaging freshA).staged ≠ []
    ∧ (generate_music reqStaging freshA).deleted = []
    ∧ ∀ (req : InferenceRequest) (fresh : Nat → String),
        (generate_music req fresh).deleted = [] :=
  ⟨by decide, by decide, rfl, fun _ _ => rfl⟩

/-- C7 counterexample: composing twice from the same request is not
byte-identical when free text is staged — the `delete=False` temp file of
the first call still exists, so the second call's `mkstemp` necessarily
yields a different name, and that name is embedded in the argument list. -/
theorem c7_not_deterministic_counterexample :
    apiCompose reqStaging freshA ≠ apiCompose reqStaging freshB := by decide

theorem genrePart_no_staging (req : InferenceRequest) (f g : Nat → String)
    (h : genreStages req = false) : genrePart req f = genrePart req g := by
  unfold genreStages at h
  unfold genrePart
  cases hf : isSet req.genre_file
  · simp [hf] at h
    simp [hf, h]
  · simp [hf]

theorem lyricsPart_no_staging (req : InferenceRequest) (f g : Nat → String)
    (h : lyricsStages req = false) : lyricsPart req f = lyricsPart req g := by
  unfold lyricsStages at h
  unfold lyricsPart
  cases hf : isSet req.lyrics_file
  · simp [hf] at h
    simp [hf, h]
  · simp [hf]

/-- C7 amended: the composed command is a deterministic function of the
request together with the staged temp-file names; whenever the request
stages nothing (each of genre and lyrics given as a file reference or
empty), the composition does not depend on the fresh-name supply at all,
so repeated composition is byte-identical. -/
theorem c7_deterministic_without_staging (req : InferenceRequest)
    (f g : Nat → String) (h : stagesNothing req = true) :
    apiCompose req f = apiCompose req g := by
  simp only [stagesNothing, Bool.and_eq_true, Bool.not_eq_true'] at h
  unfold apiCompose
  rw [genrePart_no_staging req f g h.1, lyricsPart_no_staging req f g h.2]

/-- Witness for C7's amended statement at a request passing both fields as
file references. -/
theorem c7_deterministic_without_staging_witness :
    stagesNothing reqFilesOnly = true
    ∧ apiCompose reqFilesOnly freshA = apiCompose reqFilesOnly freshB :=
  ⟨by decide,
    c7_deterministic_without_staging reqFilesOnly freshA freshB (by decide)⟩

/-- C8 counterexample: a request with segment count 0 (< 1) is not rejected
with a validation failure — `generate_music` accepts it and the out-of-range
value is included in the composed command. -/
theorem c8_no_bounds_rejection_counterexample :
    (generate_music reqOutOfRange freshA).response
      = ApiResponse.accepted "accepted" "Music generation started" OUTPUT_DIR
          "This is a placeholder. Actual implementation should run inference asynchronously and return results."
    ∧ pairInB (Arg.lit "--run_n_segments") (Arg.str "0")
        (generate_music reqOutOfRange freshA).args = true :=
  ⟨rfl, by decide⟩

/-- C8 amended: the pydantic model checks field types only; no numeric bound
of the spec (segments ≥ 1, batch ≥ 1, max tokens ≥ 1, penalty ≥ 1.0, time
bounds) is enforced anywhere — every well-typed request is answered with the
acceptance response and its numeric values pass into the composed command
unchecked. -/
theorem c8_no_numeric_validation (req : InferenceRequest)
    (fresh : Nat → String) :
    (generate_music req fresh).response
      = ApiResponse.accepted "accepted" "Music generation started" OUTPUT_DIR
          "This is a placeholder. Actual implementation should run inference asynchronously and return results."
    ∧ pairInB (Arg.lit "--run_n_segments")
        (Arg.str (toString req.run_n_segments))
        (generate_music req fresh).args = true
    ∧ pairInB (Arg.lit "--repetition_penalty") (Arg.num req.repetition_penalty)
        (generate_music req fresh).args = true := by
  refine ⟨rfl, ?_, ?_⟩
  · apply pairInB_fixed_lift
    simp [apiFixedArgs, pairInB]
  · apply pairInB_fixed_lift
    simp [apiFixedArgs, pairInB]

/-- C9 (code defect): the async generate endpoint answers with the
acceptance acknowledgement carrying the output-directory hint, but no work
is performed out of band: for this and every request the handler launches no
process and registers no background task — its own response note calls it a
placeholder. -/
theorem c9_no_out_of_band_work :
    (generate_music defaultRequest freshA).response
      = ApiResponse.accepted "accepted" "Music generation started" OUTPUT_DIR
          "This is a placeholder. Actual implementation should run inference asynchronously and return results."
    ∧ (generate_music defaultRequest freshA).launched = []
    ∧ (generate_music defaultRequest freshA).background = []
    ∧ ∀ (req : InferenceRequest) (fresh : Nat → String),
        (generate_music req fresh).launched = []
        ∧ (generate_music req fresh).background = [] :=
  ⟨rfl, rfl, rfl, fun _ _ => ⟨rfl, rfl⟩⟩

/-- C10: `get_output` joins the caller-supplied filename onto the output
directory with no normalization or containment check: `../secret.txt`
resolves to `/app/secret.txt`, which lies outside the output directory, and
its content is served whenever that file exists; 404 is returned exactly
when the joined path does not exist. -/
theorem c10_path_traversal :
    (∀ (fs : String → Option String) (fn : String),
      get_output fs fn = FetchResponse.notFound "File not found"
        ↔ fs (resolvePath (pathJoin OUTPUT_DIR fn)) = none)
    ∧ resolvePath (pathJoin OUTPUT_DIR "../secret.txt") = "/app/secret.txt"
    ∧ insideDir OUTPUT_DIR "/app/secret.txt" = false
    ∧ get_output secretFs "../secret.txt"
        = FetchResponse.fileContent "/app/secret.txt" "top-secret" := by
  refine ⟨?_, by decide, by decide, by decide⟩
  intro fs fn
  unfold get_output
  cases h : fs (resolvePath (pathJoin OUTPUT_DIR fn)) <;> simp [h]

end YuE
